import Mathlib

/-!
Verification development for the umf-service telemetry pipeline.

This file gives a shallow embedding of the Go sources under
`internal/telemetry` (models, in-memory cache, hybrid store, telemetry
service, generator client dedup logic, HTTP health handler) and proves the
frozen behavioural claims about them.

Modelling conventions, used throughout:
- `time.Time` values are modelled as `Nat` (seconds); the Go zero time
  `time.Time{}` (for which `IsZero()` holds) is modelled as `0`, and the
  current wall-clock instant `time.Now()` is passed in explicitly as a
  `now : Nat` argument (it is never the zero instant, which theorems state
  as `now ≠ 0` where it matters).
- `float64` fields are modelled as `Rat` (the claims under study only
  compare against small constants, so NaN/rounding behaviour is not
  exercised); `int64` counters as `Int`.
- Go maps are modelled as association lists with unique keys, written and
  read through `mapSet` / `mapGet`; iteration order never matters for the
  properties proved here because all per-key writes commute across keys.
- Functions returning `error` are modelled as returning the (possibly
  updated) receiver state paired with `Except String Unit`; a Go early
  return on error leaves the state component at its pre-call value.
- I/O against the SQL repository is abstracted by an oracle
  `db : Nat → Bool` telling whether the bulk write succeeds on a given
  attempt number, and context cancellation by `cancelAt : Option Nat`, the
  elapsed time (in seconds since the call started) at which `ctx.Done()`
  fires (`none` = never cancelled).
-/

deriving instance DecidableEq for Except

namespace Ufm

/-- The five metric type tokens of `models.MetricType`
(`bandwidth_mbps`, `latency_ms`, `packet_errors`, `utilization_pct`,
`temperature_c`). The Go type is a string; the service and handler only
ever use these five constants, which we model as a closed enumeration. -/
inductive MetricType where
  | bandwidthMbps
  | latencyMs
  | packetErrors
  | utilizationPct
  | temperatureC
deriving DecidableEq

/-- The string token of each metric type, as in the Go constants
`MetricBandwidth` .. `MetricTemperature` (`models/models.go`). -/
def MetricType.token : MetricType → String
  | .bandwidthMbps => "bandwidth_mbps"
  | .latencyMs => "latency_ms"
  | .packetErrors => "packet_errors"
  | .utilizationPct => "utilization_pct"
  | .temperatureC => "temperature_c"

/-- A metric value as returned through Go's `interface{}`: a `float64`
for four of the metrics and an `int64` for `packet_errors`. -/
inductive MetricValue where
  | f (x : Rat)
  | i (n : Int)
deriving DecidableEq

/-- Embedding of `models.TelemetryData` (`models/models.go`). The `id` and
`created_at` database columns play no role in the claims and are omitted. -/
structure TelemetryData where
  switchID : String
  timestamp : Nat
  bandwidthMbps : Rat
  latencyMs : Rat
  packetErrors : Int
  utilizationPct : Rat
  temperatureC : Rat
deriving DecidableEq

/-- Embedding of `TelemetryData.GetMetricValue` (`models/models.go`). With
the closed `MetricType` enumeration the Go `default` (unknown metric type)
branch is unreachable, so the function is total. -/
def TelemetryData.getMetricValue (td : TelemetryData) : MetricType → MetricValue
  | .bandwidthMbps => .f td.bandwidthMbps
  | .latencyMs => .f td.latencyMs
  | .packetErrors => .i td.packetErrors
  | .utilizationPct => .f td.utilizationPct
  | .temperatureC => .f td.temperatureC

/-- Write to a Go map modelled as an association list: replace the binding
for `k` if present, otherwise append it. Keeps keys unique. -/
def mapSet (k : String) (v : α) : List (String × α) → List (String × α)
  | [] => [(k, v)]
  | (k1, v1) :: rest =>
      if k1 = k then (k, v) :: rest else (k1, v1) :: mapSet k v rest

/-- Read from a Go map modelled as an association list. -/
def mapGet (k : String) : List (String × α) → Option α
  | [] => none
  | (k1, v1) :: rest => if k1 = k then some v1 else mapGet k rest

theorem mapGet_mapSet_self (k : String) (v : α) (m : List (String × α)) :
    mapGet k (mapSet k v m) = some v := by
  induction m with
  | nil => simp [mapSet, mapGet]
  | cons kv rest ih =>
      obtain ⟨k1, v1⟩ := kv
      by_cases h : k1 = k
      · simp [mapSet, mapGet, h]
      · simp [mapSet, mapGet, h, ih]

theorem mapGet_mapSet_ne (k k2 : String) (v : α) (h : k2 ≠ k) :
    ∀ m : List (String × α), mapGet k2 (mapSet k v m) = mapGet k2 m := by
  have hk : ¬ (k = k2) := fun hh => h hh.symm
  intro m
  induction m with
  | nil => simp [mapSet, mapGet, hk]
  | cons kv rest ih =>
      obtain ⟨k1, v1⟩ := kv
      by_cases h1 : k1 = k
      · subst h1
        simp [mapSet, mapGet, hk]
      · simp [mapSet, mapGet, h1, ih]

theorem mem_mapSet (k : String) (v : α) (kv : String × α) :
    ∀ m : List (String × α), kv ∈ mapSet k v m → kv = (k, v) ∨ kv ∈ m := by
  intro m
  induction m with
  | nil =>
      intro h
      exact Or.inl (by simpa [mapSet] using h)
  | cons kv1 rest ih =>
      obtain ⟨k1, v1⟩ := kv1
      intro h
      by_cases h1 : k1 = k
      · subst h1
        rw [show mapSet k1 v ((k1, v1) :: rest) = (k1, v) :: rest from by
          simp [mapSet]] at h
        cases List.mem_cons.mp h with
        | inl h2 => exact Or.inl h2
        | inr h2 => exact Or.inr (List.mem_cons_of_mem _ h2)
      · rw [show mapSet k v ((k1, v1) :: rest) = (k1, v1) :: mapSet k v rest from by
          simp [mapSet, h1]] at h
        cases List.mem_cons.mp h with
        | inl h2 => exact Or.inr (List.mem_cons.mpr (Or.inl h2))
        | inr h2 =>
            cases ih h2 with
            | inl h3 => exact Or.inl h3
            | inr h3 => exact Or.inr (List.mem_cons_of_mem _ h3)

/-- Embedding of `storage.InMemoryCache` (`storage/cache.go`): latest
record and last-update instant per switch id, plus the best-effort
request/hit statistics. The `sync.RWMutex` only serialises access and has
no sequential semantics, so it is not represented. -/
structure InMemoryCache where
  data : List (String × TelemetryData)
  lastUpdated : List (String × Nat)
  requestCount : Int
  hitCount : Int
deriving DecidableEq

/-- Embedding of `NewInMemoryCache`. -/
def newInMemoryCache : InMemoryCache :=
  { data := [], lastUpdated := [], requestCount := 0, hitCount := 0 }

/-- The record actually stored by the cache write paths: the key overrides
the record's switch id, and a zero timestamp is normalised to `now`. -/
def normalizeRecord (switchID : String) (now : Nat) (d : TelemetryData) :
    TelemetryData :=
  { d with
      switchID := switchID
      timestamp := if d.timestamp = 0 then now else d.timestamp }

/-- Embedding of `InMemoryCache.UpdateMetrics` (`storage/cache.go:29`):
reject an empty switch id, otherwise store a normalised copy and stamp
`lastUpdated` with `now`. -/
def InMemoryCache.updateMetrics (c : InMemoryCache) (now : Nat)
    (switchID : String) (d : TelemetryData) :
    InMemoryCache × Except String Unit :=
  if switchID = "" then (c, .error "switchID cannot be empty")
  else
    ({ c with
        data := mapSet switchID (normalizeRecord switchID now d) c.data
        lastUpdated := mapSet switchID now c.lastUpdated },
     .ok ())

/-- One step of the `UpdateBatch` loop body (`storage/cache.go:60`):
skip empty switch ids, otherwise store the normalised record. -/
def InMemoryCache.updateBatchStep (now : Nat) (c : InMemoryCache)
    (kv : String × TelemetryData) : InMemoryCache :=
  if kv.1 = "" then c
  else
    { c with
        data := mapSet kv.1 (normalizeRecord kv.1 now kv.2) c.data
        lastUpdated := mapSet kv.1 now c.lastUpdated }

/-- Embedding of `InMemoryCache.UpdateBatch` (`storage/cache.go:51`). The
Go function always returns a nil error, so no error component is modelled;
all entries are stamped with the same `now`. -/
def InMemoryCache.updateBatch (c : InMemoryCache) (now : Nat)
    (data : List (String × TelemetryData)) : InMemoryCache :=
  if data.isEmpty then c
  else data.foldl (InMemoryCache.updateBatchStep now) c

/-- Embedding of `InMemoryCache.GetMetric` (`storage/cache.go:80`). -/
def InMemoryCache.getMetric (c : InMemoryCache) (switchID : String)
    (m : MetricType) : InMemoryCache × Except String MetricValue :=
  let c1 := { c with requestCount := c.requestCount + 1 }
  match mapGet switchID c1.data with
  | none => (c1, .error ("switch " ++ switchID ++ " not found"))
  | some d =>
      ({ c1 with hitCount := c1.hitCount + 1 }, .ok (d.getMetricValue m))

/-- Embedding of `InMemoryCache.GetLastUpdate` (`storage/cache.go:144`):
zero time when the switch is unknown. -/
def InMemoryCache.getLastUpdate (c : InMemoryCache) (switchID : String) : Nat :=
  (mapGet switchID c.lastUpdated).getD 0

/-- Embedding of `storage.HybridStoreConfig` (`storage/hybrid.go:68`).
Durations are in seconds. -/
structure HybridStoreConfig where
  flushIntervalSec : Nat
  batchSize : Nat
  cacheTTLSec : Nat
  maxRetries : Nat
deriving DecidableEq

/-- Embedding of `storage.HybridStore` (`storage/hybrid.go:86`). The
`flushQueue` channel (capacity 100, see `NewHybridStore`) is modelled as a
list of pending batches together with its capacity; the lifecycle fields
mirror `hs.ctx != nil`, `hs.cancel != nil` and whether `cancel()` has been
invoked. `lastFlushTime` is in seconds of elapsed time within the write
call that set it. The background goroutines themselves (flush, cleanup,
periodic report) are concurrency and are not part of this state. -/
structure HybridStore where
  cache : InMemoryCache
  config : HybridStoreConfig
  flushQueue : List (List TelemetryData)
  flushQueueCap : Nat
  totalRequests : Int
  totalCacheHits : Int
  totalDBWrites : Int
  totalDBWriteErrors : Int
  lastFlushTime : Nat
  pendingFlushItems : Int
  ctxSet : Bool
  cancelSet : Bool
  cancelled : Bool
deriving DecidableEq

/-- Embedding of `NewHybridStore` (`storage/hybrid.go:110`): empty cache,
buffered flush channel of capacity 100, zeroed counters, not started. -/
def newHybridStore (config : HybridStoreConfig) : HybridStore :=
  { cache := newInMemoryCache
    config := config
    flushQueue := []
    flushQueueCap := 100
    totalRequests := 0
    totalCacheHits := 0
    totalDBWrites := 0
    totalDBWriteErrors := 0
    lastFlushTime := 0
    pendingFlushItems := 0
    ctxSet := false
    cancelSet := false
    cancelled := false }

/-- Embedding of `HybridStore.Start` (`storage/hybrid.go:131`): a second
call observes `hs.ctx != nil` and fails; otherwise the derived context and
cancel function are installed (and the three workers are spawned, which is
outside this state). -/
def HybridStore.start (hs : HybridStore) : HybridStore × Except String Unit :=
  if hs.ctxSet then (hs, .error "hybrid store already started")
  else ({ hs with ctxSet := true, cancelSet := true }, .ok ())

/-- Embedding of `HybridStore.Stop` (`storage/hybrid.go:159`): fails when
`hs.cancel == nil` (never started); otherwise invokes `cancel()` and waits
for the workers. We model the graceful branch in which the workers finish
before the caller's context expires, which is the branch the lifecycle
claim is about; `cancel` is never reset, so a repeated `Stop` takes the
same path. -/
def HybridStore.stop (hs : HybridStore) : HybridStore × Except String Unit :=
  if hs.cancelSet then ({ hs with cancelled := true }, .ok ())
  else (hs, .error "hybrid store not started")

/-- Embedding of `HybridStore.UpdateMetrics` (`storage/hybrid.go:207`):
cache first; then a non-blocking enqueue of the one-record batch (a full
queue silently drops it, with only a WARN log); then the request counter.
A cache error returns early, leaving every field untouched. -/
def HybridStore.updateMetrics (hs : HybridStore) (now : Nat)
    (switchID : String) (d : TelemetryData) :
    HybridStore × Except String Unit :=
  match hs.cache.updateMetrics now switchID d with
  | (_, .error e) => (hs, .error ("failed to update cache: " ++ e))
  | (c, .ok _) =>
      let hs1 := { hs with cache := c }
      let hs2 :=
        if hs1.flushQueue.length < hs1.flushQueueCap then
          { hs1 with
              flushQueue := hs1.flushQueue ++ [[d]]
              pendingFlushItems := hs1.pendingFlushItems + 1 }
        else hs1
      ({ hs2 with totalRequests := hs2.totalRequests + 1 }, .ok ())

/-- Embedding of `HybridStore.UpdateBatch` (`storage/hybrid.go:230`):
cache batch first (its error is always nil); then the map entries are
flattened to a slice with the key written into each record's switch id;
a non-empty slice is enqueued non-blockingly (full queue: dropped with a
WARN log); then the request counter. -/
def HybridStore.updateBatch (hs : HybridStore) (now : Nat)
    (data : List (String × TelemetryData)) :
    HybridStore × Except String Unit :=
  let c := hs.cache.updateBatch now data
  let hs1 := { hs with cache := c }
  let metrics := data.map (fun kv => { kv.2 with switchID := kv.1 })
  let hs2 :=
    if metrics.length > 0 then
      if hs1.flushQueue.length < hs1.flushQueueCap then
        { hs1 with
            flushQueue := hs1.flushQueue ++ [metrics]
            pendingFlushItems := hs1.pendingFlushItems + metrics.length }
      else hs1
    else hs1
  ({ hs2 with totalRequests := hs2.totalRequests + 1 }, .ok ())

/-- Whether the context is done at elapsed time `t`. -/
def ctxDone (cancelAt : Option Nat) (t : Nat) : Bool :=
  match cancelAt with
  | none => false
  | some c => decide (c ≤ t)

/-- One execution of the retry loop of `HybridStore.writeToDatabase`
(`storage/hybrid.go:503`), by recursion on the remaining loop iterations
(`fuel`, initially `maxRetries`). `attempt` is the 1-based attempt number,
`t` the elapsed time in seconds, `db` the repository oracle. The last two
result components are ghost instrumentation recording how many write
attempts were issued and which backoff sleeps completed, so that the retry
policy can be stated; they do not influence the store or the result. The
Go failure message interpolates the configured retry count and the wrapped
repository error; the model uses a fixed message, and likewise a fixed
message for `ctx.Err()`. -/
def writeGo (db : Nat → Bool) (cancelAt : Option Nat) (n : Nat) :
    Nat → Nat → Nat → Nat → HybridStore → List Nat →
    HybridStore × Except String Unit × Nat × List Nat
  | 0, _, _, attempts, hs, waits =>
      ({ hs with totalDBWriteErrors := hs.totalDBWriteErrors + 1 },
       .error "failed to write metrics after max attempts", attempts,
       waits.reverse)
  | fuel + 1, attempt, t, attempts, hs, waits =>
      if ctxDone cancelAt t then
        (hs, .error "context canceled", attempts, waits.reverse)
      else if db attempt then
        ({ hs with
            totalDBWrites := hs.totalDBWrites + n
            pendingFlushItems := hs.pendingFlushItems - n
            lastFlushTime := t },
         .ok (), attempts + 1, waits.reverse)
      else if fuel = 0 then
        ({ hs with totalDBWriteErrors := hs.totalDBWriteErrors + 1 },
         .error "failed to write metrics after max attempts", attempts + 1,
         waits.reverse)
      else
        let backoff := attempt
        if ctxDone cancelAt (t + backoff) then
          (hs, .error "context canceled", attempts + 1, waits.reverse)
        else
          writeGo db cancelAt n fuel (attempt + 1) (t + backoff)
            (attempts + 1) hs (backoff :: waits)

/-- Embedding of `HybridStore.writeToDatabase` (`storage/hybrid.go:497`):
nothing to do for an empty batch, otherwise run the retry loop starting at
attempt 1 with `config.MaxRetries` iterations available. The backoff after
failed attempt `k` is `k` seconds (`time.Duration(attempt) * time.Second`),
and both the pre-attempt check and the backoff sleep watch `ctx.Done()`. -/
def HybridStore.writeToDatabase (hs : HybridStore) (db : Nat → Bool)
    (cancelAt : Option Nat) (metrics : List TelemetryData) :
    HybridStore × Except String Unit × Nat × List Nat :=
  if metrics.isEmpty then (hs, .ok (), 0, [])
  else writeGo db cancelAt metrics.length hs.config.maxRetries 1 0 0 hs []

/-- The deduplicating cache view built by `StoreMetricsBulk`
(`storage/hybrid.go:267`): `cacheData[metric.SwitchID] = metric` in slice
order, so the last record for each switch id wins. -/
def buildCacheData (metrics : List TelemetryData) :
    List (String × TelemetryData) :=
  metrics.foldl (fun m r => mapSet r.switchID r m) []

/-- The last record in the batch carrying the given switch id, i.e. the
record `buildCacheData` retains for that key. -/
def lastWith (switchID : String) : List TelemetryData → Option TelemetryData
  | [] => none
  | r :: rest =>
      match lastWith switchID rest with
      | some x => some x
      | none => if r.switchID = switchID then some r else none

/-- Embedding of `HybridStore.StoreMetricsBulk` (`storage/hybrid.go:261`):
no-op on an empty batch; otherwise update the cache with the deduplicated
per-switch view and then write the whole batch to the database
synchronously via `writeToDatabase`. Nothing is placed on the flush
queue. -/
def HybridStore.storeMetricsBulk (hs : HybridStore) (now : Nat)
    (db : Nat → Bool) (cancelAt : Option Nat)
    (metrics : List TelemetryData) : HybridStore × Except String Unit :=
  if metrics.isEmpty then (hs, .ok ())
  else
    let c := hs.cache.updateBatch now (buildCacheData metrics)
    let r := HybridStore.writeToDatabase { hs with cache := c } db cancelAt metrics
    (r.1, r.2.1)

/-- Embedding of `HybridStore.GetMetric` (`storage/hybrid.go:282`):
request and cache-hit counters, then the cache read. -/
def HybridStore.getMetric (hs : HybridStore) (switchID : String)
    (m : MetricType) : HybridStore × Except String MetricValue :=
  let hs1 := { hs with
      totalRequests := hs.totalRequests + 1
      totalCacheHits := hs.totalCacheHits + 1 }
  let r := hs1.cache.getMetric switchID m
  ({ hs1 with cache := r.1 }, r.2)

/-- Embedding of `models.PerformanceMetrics` (`models/models.go`).
`memory_usage_mb` comes from the Go runtime allocator and has no
sequential meaning, so it is omitted. -/
structure PerformanceMetrics where
  apiLatencyMs : Rat
  activeSwitches : Nat
  totalRequests : Int
  dataAgeSeconds : Rat
  lastUpdate : Nat
deriving DecidableEq

/-- Embedding of `HybridStore.GetPerformanceMetrics`
(`storage/hybrid.go:381`): the data age is the average over all cached
records of `time.Since(record.Timestamp)` in seconds (0 when the cache is
empty), and `api_latency_ms` is the constant estimate 0.5. -/
def HybridStore.getPerformanceMetrics (hs : HybridStore) (now : Nat) :
    PerformanceMetrics :=
  let switches := hs.cache.data
  let avgDataAge : Rat :=
    if switches.length > 0 then
      ((switches.foldl
          (fun acc kv => acc + ((now : Int) - (kv.2.timestamp : Int))) 0 : Int) :
        Rat) / (switches.length : Rat)
    else 0
  { apiLatencyMs := 1 / 2
    activeSwitches := switches.length
    totalRequests := hs.totalRequests
    dataAgeSeconds := avgDataAge
    lastUpdate := hs.lastFlushTime }

/-- Embedding of `telemetryService.IngestMetrics`
(`service_with_queue.go:320`): reject an empty switch id, then delegate to
`HybridStore.UpdateMetrics` (wrapping its error); there is no further
validation on this path. The Prometheus counters and the log lines are
observability side effects and are not modelled. -/
def ingestMetrics (hs : HybridStore) (now : Nat) (d : TelemetryData) :
    HybridStore × Except String Unit :=
  if d.switchID = "" then (hs, .error "switchID cannot be empty")
  else
    match hs.updateMetrics now d.switchID d with
    | (hs1, .ok _) => (hs1, .ok ())
    | (hs1, .error e) => (hs1, .error ("failed to ingest metrics: " ++ e))

/-- Embedding of `telemetryService.IngestBatch`
(`service_with_queue.go:351`): an empty slice succeeds untouched; records
with empty switch ids are filtered out with a WARN log; if nothing is
left, an error; otherwise the valid records go to
`HybridStore.StoreMetricsBulk` (wrapping its error) under
`context.Background()`, which is never cancelled (`cancelAt := none`). -/
def ingestBatch (hs : HybridStore) (now : Nat) (db : Nat → Bool)
    (data : List TelemetryData) : HybridStore × Except String Unit :=
  if data.isEmpty then (hs, .ok ())
  else
    let validData := data.filter (fun d => decide (d.switchID ≠ ""))
    if validData.isEmpty then (hs, .error "no valid telemetry data to ingest")
    else
      match hs.storeMetricsBulk now db none validData with
      | (hs1, .ok _) => (hs1, .ok ())
      | (hs1, .error e) =>
          (hs1, .error ("failed to ingest batch metrics: " ++ e))

/-- Embedding of `telemetryService.ValidateMetricData`
(`service_with_queue.go:566`): empty id, negative bandwidth, latency or
packet errors, and utilization outside [0,100] are rejected; the
temperature field is not inspected. (No caller in the repository invokes
this function.) -/
def validateMetricData (d : TelemetryData) : Except String Unit :=
  if d.switchID = "" then .error "switchID cannot be empty"
  else if d.bandwidthMbps < 0 then .error "bandwidth cannot be negative"
  else if d.latencyMs < 0 then .error "latency cannot be negative"
  else if d.packetErrors < 0 then .error "packet errors cannot be negative"
  else if d.utilizationPct < 0 ∨ d.utilizationPct > 100 then
    .error "utilization must be between 0 and 100"
  else .ok ()

/-- Embedding of `models.MetricResponse` (`models/models.go`). -/
structure MetricResponse where
  switchID : String
  metricType : MetricType
  value : MetricValue
  timestamp : Nat
deriving DecidableEq

/-- Embedding of `telemetryService.GetMetric`
(`service_with_queue.go:382`): empty id rejected; the store read supplies
the value; the response timestamp is the switch's last cache update,
defaulting to `now` when that is the zero time. -/
def serviceGetMetric (hs : HybridStore) (now : Nat) (switchID : String)
    (m : MetricType) : HybridStore × Except String MetricResponse :=
  if switchID = "" then (hs, .error "switchID cannot be empty")
  else
    match hs.getMetric switchID m with
    | (hs1, .error e) =>
        (hs1, .error ("failed to get metric " ++ m.token ++ " for switch "
          ++ switchID ++ ": " ++ e))
    | (hs1, .ok v) =>
        let lastUpdate := hs1.cache.getLastUpdate switchID
        let lastUpdate := if lastUpdate = 0 then now else lastUpdate
        (hs1,
         .ok { switchID := switchID, metricType := m, value := v,
               timestamp := lastUpdate })

/-- Embedding of the status computation of
`telemetryService.GetHealthStatus` (`service_with_queue.go:500`): start
from healthy; the store performance snapshot is never nil, so the status
degrades when `DataAgeSeconds > 300`; it also degrades when the cached
switch count is zero. Only the `status` field is modelled (the other map
entries are informational). -/
def serviceHealthStatus (hs : HybridStore) (now : Nat) : String :=
  let switchCount := hs.cache.data.length
  let performance := hs.getPerformanceMetrics now
  let status := "healthy"
  let status := if performance.dataAgeSeconds > 300 then "degraded" else status
  let status := if switchCount = 0 then "degraded" else status
  status

/-- Embedding of the status-code choice of
`telemetryHandler.GetHealthStatus` (`http_handler_telemetry.go:271`): 200
when the service reports `healthy`, 503 otherwise. -/
def healthHTTPCode (status : String) : Nat :=
  if status = "healthy" then 200 else 503

/-- Outcome of one execution of
`GeneratorClient.fetchAndProcessData` (`generator_client.go:215`). -/
inductive PollOutcome where
  | fetchError
  | duplicate
  | parseError
  | ingestError
  | ingested
deriving DecidableEq

/-- Embedding of the `GeneratorClient` dedup and statistics state
(`generator_client.go:29`): the last seen generation id and data
timestamp, plus the poll counters the processing path maintains. -/
structure GeneratorClient where
  lastGenerationID : String
  lastDataTimestamp : Nat
  successfulPolls : Nat
  duplicateSkips : Nat
  errorCount : Nat
deriving DecidableEq

/-- Embedding of `GeneratorClient.isDuplicateData`
(`generator_client.go:482`): a non-empty generation id equal to the last
seen one is a duplicate; otherwise a non-zero extracted timestamp that is
not strictly after the last seen one is a duplicate — this timestamp
fallback runs whenever the generation-id test did not fire, including when
a different non-empty generation id was provided. -/
def GeneratorClient.isDuplicateData (gc : GeneratorClient)
    (generationID : String) (dataTimestamp : Nat) : Bool :=
  if generationID ≠ "" ∧ generationID = gc.lastGenerationID then true
  else if dataTimestamp ≠ 0 ∧ ¬ (dataTimestamp > gc.lastDataTimestamp) then
    true
  else false

/-- Embedding of `GeneratorClient.fetchAndProcessData`
(`generator_client.go:215`). The HTTP fetch, CSV parse and service ingest
are abstracted by their success booleans, and `dataTimestamp` stands for
the already-extracted timestamp (from `X-Data-Timestamp`, else the first
CSV row). The last-seen tuple is only written after a successful ingest;
every other exit leaves it untouched. Switch registration affects only the
service and is outside this state. -/
def GeneratorClient.fetchAndProcessData (gc : GeneratorClient)
    (fetchOk : Bool) (generationID : String) (dataTimestamp : Nat)
    (parseOk : Bool) (ingestOk : Bool) : GeneratorClient × PollOutcome :=
  if ¬ fetchOk then
    ({ gc with errorCount := gc.errorCount + 1 }, .fetchError)
  else if gc.isDuplicateData generationID dataTimestamp then
    ({ gc with duplicateSkips := gc.duplicateSkips + 1 }, .duplicate)
  else if ¬ parseOk then
    ({ gc with errorCount := gc.errorCount + 1 }, .parseError)
  else if ¬ ingestOk then
    ({ gc with errorCount := gc.errorCount + 1 }, .ingestError)
  else
    ({ gc with
        lastGenerationID := generationID
        lastDataTimestamp := dataTimestamp
        successfulPolls := gc.successfulPolls + 1 }, .ingested)

/-! Concrete test fixtures used by witnesses and counterexamples. -/

/-- The defaults of `DefaultHybridStoreConfig` (`storage/hybrid.go:76`):
flush interval 30s, batch size 100, cache TTL 300s, max retries 3. -/
def cfg0 : HybridStoreConfig :=
  { flushIntervalSec := 30, batchSize := 100, cacheTTLSec := 300,
    maxRetries := 3 }

/-- A well-formed telemetry record. -/
def recA : TelemetryData :=
  { switchID := "sw-a", timestamp := 4, bandwidthMbps := 1000, latencyMs := 2,
    packetErrors := 0, utilizationPct := 75, temperatureC := 45 }

/-- A second well-formed record for the same switch. -/
def recA2 : TelemetryData :=
  { switchID := "sw-a", timestamp := 6, bandwidthMbps := 1200, latencyMs := 3,
    packetErrors := 1, utilizationPct := 80, temperatureC := 47 }

/-- A well-formed record for another switch. -/
def recB : TelemetryData :=
  { switchID := "sw-b", timestamp := 5, bandwidthMbps := 2000, latencyMs := 1,
    packetErrors := 2, utilizationPct := 85, temperatureC := 50 }

/-- A record violating every documented bound: negative bandwidth, latency
and packet errors, utilization above 100 and temperature above 150. -/
def recNeg : TelemetryData :=
  { switchID := "sw-neg", timestamp := 3, bandwidthMbps := -5, latencyMs := -1,
    packetErrors := -2, utilizationPct := 150, temperatureC := 500 }

/-- A record whose switch id is empty. -/
def recEmptyID : TelemetryData :=
  { switchID := "", timestamp := 8, bandwidthMbps := 10, latencyMs := 1,
    packetErrors := 0, utilizationPct := 10, temperatureC := 20 }

/-- A client dedup state that has already seen generation id `g1` with
data timestamp 10. -/
def gcSeen : GeneratorClient :=
  { lastGenerationID := "g1", lastDataTimestamp := 10, successfulPolls := 3,
    duplicateSkips := 0, errorCount := 0 }

/-- A hybrid store whose flush queue is at its capacity of 100 batches. -/
def fullHS : HybridStore :=
  { newHybridStore cfg0 with flushQueue := List.replicate 100 [] }

/-! Claim C3: ingestion-client deduplication. -/

/-- Claim C3, counterexample. The claim says a snapshot carrying a
generation id different from the last seen one is accepted regardless of
the timestamp comparison. On the code, a poll with the fresh generation id
`g2` (last seen `g1`) whose extracted timestamp 10 is not strictly after
the last seen timestamp 10 is classified as a duplicate and dropped. -/
theorem claim_C3_cex :
    gcSeen.isDuplicateData "g2" 10 = true ∧
    (gcSeen.fetchAndProcessData true "g2" 10 true true).2 =
      PollOutcome.duplicate ∧
    gcSeen.lastGenerationID = "g1" ∧ "g2" ≠ gcSeen.lastGenerationID := by
  decide

/-- Claim C3, amended: a fetched snapshot is dropped as a duplicate
exactly when its non-empty generation id equals the last seen one, or when
its extracted data timestamp is non-zero and not strictly after the last
seen timestamp — the timestamp test applies whenever the generation-id
test did not fire, including when a different generation id is present.
The last-seen tuple is updated only on a successful ingest. -/
theorem claim_C3 (gc : GeneratorClient) (generationID : String)
    (dataTimestamp : Nat) (fetchOk parseOk ingestOk : Bool) :
    (gc.isDuplicateData generationID dataTimestamp = true ↔
      ((generationID ≠ "" ∧ generationID = gc.lastGenerationID) ∨
       (dataTimestamp ≠ 0 ∧ dataTimestamp ≤ gc.lastDataTimestamp))) ∧
    ((gc.fetchAndProcessData fetchOk generationID dataTimestamp parseOk
        ingestOk).2 ≠ PollOutcome.ingested →
      (gc.fetchAndProcessData fetchOk generationID dataTimestamp parseOk
        ingestOk).1.lastGenerationID = gc.lastGenerationID ∧
      (gc.fetchAndProcessData fetchOk generationID dataTimestamp parseOk
        ingestOk).1.lastDataTimestamp = gc.lastDataTimestamp) ∧
    ((gc.fetchAndProcessData fetchOk generationID dataTimestamp parseOk
        ingestOk).2 = PollOutcome.ingested →
      (gc.fetchAndProcessData fetchOk generationID dataTimestamp parseOk
        ingestOk).1.lastGenerationID = generationID ∧
      (gc.fetchAndProcessData fetchOk generationID dataTimestamp parseOk
        ingestOk).1.lastDataTimestamp = dataTimestamp ∧
      gc.isDuplicateData generationID dataTimestamp = false ∧
      fetchOk = true ∧ parseOk = true ∧ ingestOk = true) := by
  refine ⟨?_, ?_, ?_⟩
  · unfold GeneratorClient.isDuplicateData
    by_cases h1 : generationID ≠ "" ∧ generationID = gc.lastGenerationID
    · rw [if_pos h1]
      exact ⟨fun _ => Or.inl h1, fun _ => rfl⟩
    · rw [if_neg h1]
      by_cases h2 : dataTimestamp ≠ 0 ∧
          ¬ (dataTimestamp > gc.lastDataTimestamp)
      · rw [if_pos h2]
        exact ⟨fun _ => Or.inr ⟨h2.1, Nat.le_of_not_lt h2.2⟩, fun _ => rfl⟩
      · rw [if_neg h2]
        constructor
        · intro h
          exact absurd h (by simp)
        · intro h
          rcases h with h | h
          · exact absurd h h1
          · exact absurd ⟨h.1, Nat.not_lt.mpr h.2⟩ h2
  · cases fetchOk with
    | false =>
        intro _
        constructor <;> simp [GeneratorClient.fetchAndProcessData]
    | true =>
        cases hdup : gc.isDuplicateData generationID dataTimestamp with
        | true =>
            intro _
            constructor <;> simp [GeneratorClient.fetchAndProcessData, hdup]
        | false =>
            cases parseOk with
            | false =>
                intro _
                constructor <;>
                  simp [GeneratorClient.fetchAndProcessData, hdup]
            | true =>
                cases ingestOk with
                | false =>
                    intro _
                    constructor <;>
                      simp [GeneratorClient.fetchAndProcessData, hdup]
                | true =>
                    intro h
                    exact absurd
                      (by simp [GeneratorClient.fetchAndProcessData, hdup]) h
  · cases fetchOk with
    | false =>
        intro h
        simp [GeneratorClient.fetchAndProcessData] at h
    | true =>
        cases hdup : gc.isDuplicateData generationID dataTimestamp with
        | true =>
            intro h
            simp [GeneratorClient.fetchAndProcessData, hdup] at h
        | false =>
            cases parseOk with
            | false =>
                intro h
                simp [GeneratorClient.fetchAndProcessData, hdup] at h
            | true =>
                cases ingestOk with
                | false =>
                    intro h
                    simp [GeneratorClient.fetchAndProcessData, hdup] at h
                | true =>
                    intro _
                    refine ⟨?_, ?_, rfl, rfl, rfl, rfl⟩ <;>
                      simp [GeneratorClient.fetchAndProcessData, hdup]

/-- Claim C3, witness: a poll with a fresh generation id and advancing
timestamp is ingested and the last-seen tuple becomes that pair. -/
theorem claim_C3_witness :
    (gcSeen.fetchAndProcessData true "g2" 11 true true).1.lastGenerationID
        = "g2" ∧
    (gcSeen.fetchAndProcessData true "g2" 11 true true).1.lastDataTimestamp
        = 11 ∧
    gcSeen.isDuplicateData "g2" 11 = false ∧
    (true : Bool) = true ∧ (true : Bool) = true ∧ (true : Bool) = true :=
  (claim_C3 gcSeen "g2" 11 true true true).2.2 (by decide)

/-! Claim C8: hybrid store lifecycle. -/

/-- Claim C8: the hybrid store lifecycle. `Start` succeeds exactly on a
store that was never started; a second `Start` returns the already-started
error. Once started (`cancel` installed), `Stop` always succeeds,
triggers the shutdown protocol (the shared context is cancelled), and is
idempotent: a repeated `Stop` succeeds again. -/
theorem claim_C8 (hs : HybridStore) :
    ((hs.start).2 = .ok () ↔ hs.ctxSet = false) ∧
    ((hs.start).2 = .ok () →
      ((hs.start).1.start).2 = .error "hybrid store already started") ∧
    ((hs.start).2 = .ok () → (hs.start).1.cancelSet = true) ∧
    (hs.cancelSet = true →
      (hs.stop).2 = .ok () ∧ (hs.stop).1.cancelled = true ∧
      ((hs.stop).1.stop).2 = .ok () ∧
      ((hs.stop).1.stop).1.cancelled = true) ∧
    (hs.cancelSet = false → (hs.stop).2 = .error "hybrid store not started") := by
  unfold HybridStore.start HybridStore.stop
  by_cases h : hs.ctxSet <;> by_cases h2 : hs.cancelSet <;> simp [h, h2]

/-- Claim C8, witness: a freshly constructed store starts, refuses a
second start, stops, and stops again. -/
theorem claim_C8_witness :
    (((newHybridStore cfg0).start).2 = .ok () ↔
      (newHybridStore cfg0).ctxSet = false) ∧
    (((newHybridStore cfg0).start).1.start).2 =
      .error "hybrid store already started" ∧
    ((((newHybridStore cfg0).start).1.stop).2 = .ok () ∧
      (((newHybridStore cfg0).start).1.stop).1.cancelled = true ∧
      ((((newHybridStore cfg0).start).1.stop).1.stop).2 = .ok () ∧
      ((((newHybridStore cfg0).start).1.stop).1.stop).1.cancelled = true) :=
  ⟨(claim_C8 (newHybridStore cfg0)).1,
   (claim_C8 (newHybridStore cfg0)).2.1 (by decide),
   (claim_C8 ((newHybridStore cfg0).start).1).2.2.2.1
     ((claim_C8 (newHybridStore cfg0)).2.2.1 (by decide))⟩

/-! Claim C9: health status. -/

/-- Claim C9: `GetHealthStatus` reports `degraded` exactly when the
average age of the cached records exceeds 300 seconds or the cached
switch count is zero, and `healthy` otherwise; the health endpoint maps
`healthy` to HTTP 200 and anything else to HTTP 503. -/
theorem claim_C9 (hs : HybridStore) (now : Nat) :
    (serviceHealthStatus hs now = "degraded" ↔
      ((hs.getPerformanceMetrics now).dataAgeSeconds > 300 ∨
        hs.cache.data.length = 0)) ∧
    (serviceHealthStatus hs now = "healthy" ↔
      ¬ ((hs.getPerformanceMetrics now).dataAgeSeconds > 300 ∨
        hs.cache.data.length = 0)) ∧
    (healthHTTPCode (serviceHealthStatus hs now) = 200 ↔
      serviceHealthStatus hs now = "healthy") ∧
    (healthHTTPCode (serviceHealthStatus hs now) = 503 ↔
      serviceHealthStatus hs now ≠ "healthy") := by
  have hcode : ∀ s : String, healthHTTPCode s = if s = "healthy" then 200
      else 503 := fun _ => rfl
  unfold serviceHealthStatus
  by_cases hage : (hs.getPerformanceMetrics now).dataAgeSeconds > 300
  · by_cases hcount : hs.cache.data.length = 0
    · simp [hage, hcount, healthHTTPCode]
    · simp [hage, hcount, healthHTTPCode]
  · by_cases hcount : hs.cache.data.length = 0
    · simp [hage, hcount, healthHTTPCode]
    · simp [hage, hcount, healthHTTPCode]

/-! Claim C6: cache well-formedness invariant. -/

/-- The invariant claimed of the cache contents: every stored record has a
non-zero timestamp and a non-empty switch id. -/
def CacheWF (c : InMemoryCache) : Prop :=
  ∀ kv ∈ c.data, kv.2.timestamp ≠ 0 ∧ kv.2.switchID ≠ ""

instance (c : InMemoryCache) : Decidable (CacheWF c) := by
  unfold CacheWF
  infer_instance

theorem normalizeRecord_timestamp_ne_zero (switchID : String) (now : Nat)
    (hnow : now ≠ 0) (d : TelemetryData) :
    (normalizeRecord switchID now d).timestamp ≠ 0 := by
  unfold normalizeRecord
  dsimp only
  by_cases h : d.timestamp = 0
  · simpa [h] using hnow
  · simp [h]

theorem cacheWF_updateMetrics (c : InMemoryCache) (now : Nat)
    (hnow : now ≠ 0) (switchID : String) (d : TelemetryData)
    (hwf : CacheWF c) : CacheWF (c.updateMetrics now switchID d).1 := by
  unfold InMemoryCache.updateMetrics
  by_cases h : switchID = ""
  · simpa [h] using hwf
  · rw [if_neg h]
    intro kv hkv
    rcases mem_mapSet _ _ _ _ hkv with h2 | h2
    · rw [h2]
      exact ⟨normalizeRecord_timestamp_ne_zero switchID now hnow d, h⟩
    · exact hwf kv h2

theorem cacheWF_updateBatchStep (c : InMemoryCache) (now : Nat)
    (hnow : now ≠ 0) (kv0 : String × TelemetryData) (hwf : CacheWF c) :
    CacheWF (InMemoryCache.updateBatchStep now c kv0) := by
  unfold InMemoryCache.updateBatchStep
  by_cases h : kv0.1 = ""
  · simpa [h] using hwf
  · rw [if_neg h]
    intro kv hkv
    rcases mem_mapSet _ _ _ _ hkv with h2 | h2
    · rw [h2]
      exact ⟨normalizeRecord_timestamp_ne_zero kv0.1 now hnow kv0.2, h⟩
    · exact hwf kv h2

theorem cacheWF_updateBatchFold (now : Nat) (hnow : now ≠ 0) :
    ∀ (data : List (String × TelemetryData)) (c : InMemoryCache),
      CacheWF c →
      CacheWF (data.foldl (InMemoryCache.updateBatchStep now) c) := by
  intro data
  induction data with
  | nil => intro c hwf; exact hwf
  | cons kv rest ih =>
      intro c hwf
      exact ih _ (cacheWF_updateBatchStep c now hnow kv hwf)

theorem cacheWF_updateBatch (c : InMemoryCache) (now : Nat) (hnow : now ≠ 0)
    (data : List (String × TelemetryData)) (hwf : CacheWF c) :
    CacheWF (c.updateBatch now data) := by
  unfold InMemoryCache.updateBatch
  by_cases h : data.isEmpty
  · simpa [h] using hwf
  · rw [if_neg h]
    exact cacheWF_updateBatchFold now hnow data c hwf

/-- A sequence of cache write operations, each carrying the wall-clock
instant at which it executes. -/
inductive CacheOp where
  | one (now : Nat) (switchID : String) (d : TelemetryData)
  | batch (now : Nat) (data : List (String × TelemetryData))

/-- The wall-clock instant of an operation. -/
def CacheOp.now : CacheOp → Nat
  | .one n _ _ => n
  | .batch n _ => n

/-- Apply one write operation; a rejected `UpdateMetrics` leaves the
receiver unchanged, as in Go. -/
def applyCacheOp (c : InMemoryCache) : CacheOp → InMemoryCache
  | .one n switchID d => (c.updateMetrics n switchID d).1
  | .batch n data => c.updateBatch n data

/-- Run a sequence of write operations against a fresh cache. -/
def runCacheOps (ops : List CacheOp) : InMemoryCache :=
  ops.foldl applyCacheOp newInMemoryCache

theorem cacheWF_runFold (ops : List CacheOp)
    (h : ∀ op ∈ ops, op.now ≠ 0) :
    ∀ c : InMemoryCache, CacheWF c →
      CacheWF (ops.foldl applyCacheOp c) := by
  induction ops with
  | nil => intro c hwf; exact hwf
  | cons op rest ih =>
      intro c hwf
      have hop : op.now ≠ 0 := h op (List.mem_cons_self _ _)
      have hrest : ∀ op2 ∈ rest, op2.now ≠ 0 := fun op2 h2 =>
        h op2 (List.mem_cons_of_mem _ h2)
      refine ih hrest _ ?_
      cases op with
      | one n switchID d => exact cacheWF_updateMetrics c n hop switchID d hwf
      | batch n data => exact cacheWF_updateBatch c n hop data hwf

/-- Claim C6: after any sequence of `UpdateMetrics` and `UpdateBatch`
calls (each executing at a non-zero wall-clock instant, as `time.Now()`
always is), every record stored in the cache has a non-zero timestamp and
a non-empty switch id; and `UpdateMetrics` with an empty switch id is
rejected with an error, leaving the cache unchanged. -/
theorem claim_C6 (ops : List CacheOp) (h : ∀ op ∈ ops, op.now ≠ 0) :
    CacheWF (runCacheOps ops) ∧
    (∀ (c : InMemoryCache) (now : Nat) (d : TelemetryData),
      c.updateMetrics now "" d = (c, .error "switchID cannot be empty")) := by
  constructor
  · unfold runCacheOps
    refine cacheWF_runFold ops h newInMemoryCache ?_
    intro kv hkv
    simp [newInMemoryCache] at hkv
  · intro c now d
    unfold InMemoryCache.updateMetrics
    rw [if_pos rfl]

/-- Claim C6, witness: a concrete run mixing a single update (with a
zero input timestamp), a rejected empty-id update and a batch containing
an empty-id entry satisfies the invariant. -/
theorem claim_C6_witness :
    CacheWF (runCacheOps
      [CacheOp.one 5 "sw-a" { recA with timestamp := 0 },
       CacheOp.one 6 "" recEmptyID,
       CacheOp.batch 7 [("sw-b", recB), ("", recEmptyID)]]) :=
  (claim_C6
    [CacheOp.one 5 "sw-a" { recA with timestamp := 0 },
     CacheOp.one 6 "" recEmptyID,
     CacheOp.batch 7 [("sw-b", recB), ("", recEmptyID)]]
    (by decide)).1

/-! Claims C1 and C7: the single-record ingest path. -/

theorem ingestMetrics_ok (hs : HybridStore) (now : Nat) (d : TelemetryData)
    (h : d.switchID ≠ "") :
    (ingestMetrics hs now d).2 = .ok () ∧
    (ingestMetrics hs now d).1.cache.data =
      mapSet d.switchID (normalizeRecord d.switchID now d) hs.cache.data ∧
    (ingestMetrics hs now d).1.cache.lastUpdated =
      mapSet d.switchID now hs.cache.lastUpdated := by
  unfold ingestMetrics HybridStore.updateMetrics InMemoryCache.updateMetrics
  simp only [if_neg h]
  split <;> simp

theorem getMetricValue_normalizeRecord (switchID : String) (now : Nat)
    (d : TelemetryData) (m : MetricType) :
    (normalizeRecord switchID now d).getMetricValue m = d.getMetricValue m := by
  cases m <;> rfl

/-- Claim C1, counterexample. The claim says `IngestMetrics` returns a
ValidationError and performs no cache write for a record with negative
bandwidth, latency or packet errors, utilization outside [0,100] or
temperature outside [-50,150]. On the code, `recNeg` violates every one
of these bounds, yet `IngestMetrics` succeeds and the record is written to
the cache verbatim. -/
theorem claim_C1_cex :
    (ingestMetrics (newHybridStore cfg0) 7 recNeg).2 = .ok () ∧
    mapGet "sw-neg"
        (ingestMetrics (newHybridStore cfg0) 7 recNeg).1.cache.data =
      some recNeg ∧
    (recNeg.bandwidthMbps < 0 ∧ recNeg.latencyMs < 0 ∧
      recNeg.packetErrors < 0 ∧ recNeg.utilizationPct > 100 ∧
      recNeg.temperatureC > 150) := by
  decide

/-- Claim C1, amended: `IngestMetrics` rejects exactly the empty switch
id; any record with a non-empty switch id — including ones with negative
numeric fields, utilization outside [0,100] or temperature outside
[-50,150] — is accepted and written to the cache. The separate
`ValidateMetricData` helper (which no caller invokes) accepts a record
exactly when the switch id is non-empty, bandwidth, latency and packet
errors are non-negative and utilization lies in [0,100]; it does not
inspect the temperature. -/
theorem claim_C1 (hs : HybridStore) (now : Nat) (d : TelemetryData) :
    (d.switchID = "" →
      ingestMetrics hs now d = (hs, .error "switchID cannot be empty")) ∧
    (d.switchID ≠ "" →
      (ingestMetrics hs now d).2 = .ok () ∧
      mapGet d.switchID (ingestMetrics hs now d).1.cache.data =
        some (normalizeRecord d.switchID now d)) ∧
    (validateMetricData d = .ok () ↔
      (d.switchID ≠ "" ∧ 0 ≤ d.bandwidthMbps ∧ 0 ≤ d.latencyMs ∧
        0 ≤ d.packetErrors ∧ 0 ≤ d.utilizationPct ∧
        d.utilizationPct ≤ 100)) := by
  refine ⟨?_, ?_, ?_⟩
  · intro h
    unfold ingestMetrics
    rw [if_pos h]
  · intro h
    obtain ⟨h1, h2, _⟩ := ingestMetrics_ok hs now d h
    exact ⟨h1, by rw [h2, mapGet_mapSet_self]⟩
  · unfold validateMetricData
    split_ifs with g1 g2 g3 g4 g5
    · constructor
      · intro hh; cases hh
      · intro hh; exact absurd g1 hh.1
    · constructor
      · intro hh; cases hh
      · intro hh; exact absurd g2 (not_lt.mpr hh.2.1)
    · constructor
      · intro hh; cases hh
      · intro hh; exact absurd g3 (not_lt.mpr hh.2.2.1)
    · constructor
      · intro hh; cases hh
      · intro hh; exact absurd g4 (not_lt.mpr hh.2.2.2.1)
    · constructor
      · intro hh; cases hh
      · intro hh
        rcases g5 with g5 | g5
        · exact absurd g5 (not_lt.mpr hh.2.2.2.2.1)
        · exact absurd g5 (not_lt.mpr hh.2.2.2.2.2)
    · constructor
      · intro _
        refine ⟨g1, le_of_not_lt g2, le_of_not_lt g3, le_of_not_lt g4, ?_, ?_⟩
        · exact le_of_not_lt (fun hh => g5 (Or.inl hh))
        · exact le_of_not_lt (fun hh => g5 (Or.inr hh))
      · intro _
        rfl

/-- Claim C1, witness: a well-formed record is ingested and lands in the
cache. -/
theorem claim_C1_witness :
    (ingestMetrics (newHybridStore cfg0) 7 recA).2 = .ok () ∧
    mapGet "sw-a" (ingestMetrics (newHybridStore cfg0) 7 recA).1.cache.data =
      some (normalizeRecord "sw-a" 7 recA) :=
  (claim_C1 (newHybridStore cfg0) 7 recA).2.1 (by decide)

/-- Claim C7: for every valid record (non-empty switch id) ingested with
`IngestMetrics`, an immediately following `GetMetric` on that switch
returns the record's value, for each of the five metric types. -/
theorem claim_C7 (hs : HybridStore) (now now2 : Nat) (d : TelemetryData)
    (m : MetricType) (h : d.switchID ≠ "") :
    (ingestMetrics hs now d).2 = .ok () ∧
    ∃ resp : MetricResponse,
      (serviceGetMetric (ingestMetrics hs now d).1 now2 d.switchID m).2 =
        .ok resp ∧
      resp.value = d.getMetricValue m ∧
      resp.switchID = d.switchID ∧ resp.metricType = m := by
  obtain ⟨h1, h2, _⟩ := ingestMetrics_ok hs now d h
  refine ⟨h1, ?_⟩
  unfold serviceGetMetric HybridStore.getMetric InMemoryCache.getMetric
  rw [if_neg h]
  dsimp only
  rw [h2, mapGet_mapSet_self]
  dsimp only
  exact ⟨_, rfl, getMetricValue_normalizeRecord d.switchID now d m, rfl, rfl⟩

/-- Claim C7, witness: ingest `recB` into a fresh store and read its
bandwidth back. -/
theorem claim_C7_witness :
    (ingestMetrics (newHybridStore cfg0) 9 recB).2 = .ok () ∧
    ∃ resp : MetricResponse,
      (serviceGetMetric (ingestMetrics (newHybridStore cfg0) 9 recB).1 11
        "sw-b" MetricType.bandwidthMbps).2 = .ok resp ∧
      resp.value = recB.getMetricValue MetricType.bandwidthMbps ∧
      resp.switchID = "sw-b" ∧ resp.metricType = MetricType.bandwidthMbps :=
  claim_C7 (newHybridStore cfg0) 9 11 recB MetricType.bandwidthMbps (by decide)

/-! Claim C10: the batch ingest path. -/

/-- Claim C10: `IngestBatch` with an empty slice succeeds without touching
the store; with a non-empty batch that has no valid record it returns an
error (store untouched); with at least one valid record it drops the
empty-id records and hands exactly the remaining ones to the bulk store
path — unlike `IngestMetrics`, for which an empty switch id is an
error. -/
theorem claim_C10 (hs : HybridStore) (now : Nat) (db : Nat → Bool)
    (data : List TelemetryData) :
    ingestBatch hs now db [] = (hs, .ok ()) ∧
    (data ≠ [] → (∀ d ∈ data, d.switchID = "") →
      ingestBatch hs now db data =
        (hs, .error "no valid telemetry data to ingest")) ∧
    ((∃ d ∈ data, d.switchID ≠ "") →
      (ingestBatch hs now db data).1 =
        (hs.storeMetricsBulk now db none
          (data.filter (fun d => decide (d.switchID ≠ "")))).1 ∧
      ((ingestBatch hs now db data).2 = .ok () ↔
        (hs.storeMetricsBulk now db none
          (data.filter (fun d => decide (d.switchID ≠ "")))).2 = .ok ())) ∧
    (∀ d : TelemetryData, d.switchID = "" →
      ingestMetrics hs now d = (hs, .error "switchID cannot be empty")) := by
  refine ⟨rfl, ?_, ?_, ?_⟩
  · intro hne hall
    have hdataE : data.isEmpty = false := by
      cases data with
      | nil => exact absurd rfl hne
      | cons a l => rfl
    have hfil : data.filter (fun d => decide (d.switchID ≠ "")) = [] := by
      rw [List.filter_eq_nil_iff]
      intro d hd
      simp [hall d hd]
    unfold ingestBatch
    rw [hdataE]
    simp only [Bool.false_eq_true, if_false, hfil]
    rfl
  · intro hex
    obtain ⟨d0, hd0, hne0⟩ := hex
    have hdataE : data.isEmpty = false := by
      cases data with
      | nil => cases hd0
      | cons a l => rfl
    have hmem : d0 ∈ data.filter (fun d => decide (d.switchID ≠ "")) := by
      rw [List.mem_filter]
      exact ⟨hd0, by simp [hne0]⟩
    have hfe : (data.filter (fun d => decide (d.switchID ≠ ""))).isEmpty
        = false := by
      cases hfil : data.filter (fun d => decide (d.switchID ≠ "")) with
      | nil => rw [hfil] at hmem; cases hmem
      | cons a l => rfl
    unfold ingestBatch
    rw [hdataE]
    simp only [Bool.false_eq_true, if_false, hfe]
    rcases hsm : hs.storeMetricsBulk now db none
        (data.filter (fun d => decide (d.switchID ≠ ""))) with ⟨hs1, r⟩
    cases r with
    | ok u => cases u; simp
    | error e => simp
  · intro d hd
    unfold ingestMetrics
    rw [if_pos hd]

/-- Claim C10, witness: a batch of only empty-id records errors; a mixed
batch is handed to the bulk path with the empty-id record dropped. -/
theorem claim_C10_witness :
    ingestBatch (newHybridStore cfg0) 5 (fun _ => true) [recEmptyID] =
      (newHybridStore cfg0, .error "no valid telemetry data to ingest") ∧
    (ingestBatch (newHybridStore cfg0) 5 (fun _ => true)
        [recA, recEmptyID]).1 =
      ((newHybridStore cfg0).storeMetricsBulk 5 (fun _ => true) none
        ([recA, recEmptyID].filter (fun d => decide (d.switchID ≠ "")))).1 :=
  ⟨(claim_C10 (newHybridStore cfg0) 5 (fun _ => true) [recEmptyID]).2.1
      (by decide) (by decide),
   ((claim_C10 (newHybridStore cfg0) 5 (fun _ => true)
      [recA, recEmptyID]).2.2.1 ⟨recA, by decide, by decide⟩).1⟩

/-! Claim C4: full flush queue behaviour of the hybrid write paths. -/

/-- Claim C4, counterexample. The claim says that when the flush queue is
full a dropped-batches counter is incremented. On the code, with the
queue at its capacity of 100, `UpdateMetrics` still succeeds and updates
the cache, the batch is dropped (queue unchanged) — but every counter
field of the store other than `totalRequests` is unchanged: there is no
dropped-batches counter to increment (the drop is only logged at WARN). -/
theorem claim_C4_cex :
    (fullHS.updateMetrics 5 "sw-a" recA).2 = .ok () ∧
    (fullHS.updateMetrics 5 "sw-a" recA).1.flushQueue = fullHS.flushQueue ∧
    (fullHS.updateMetrics 5 "sw-a" recA).1.pendingFlushItems =
      fullHS.pendingFlushItems ∧
    (fullHS.updateMetrics 5 "sw-a" recA).1.totalDBWrites =
      fullHS.totalDBWrites ∧
    (fullHS.updateMetrics 5 "sw-a" recA).1.totalDBWriteErrors =
      fullHS.totalDBWriteErrors ∧
    (fullHS.updateMetrics 5 "sw-a" recA).1.totalCacheHits =
      fullHS.totalCacheHits ∧
    (fullHS.updateMetrics 5 "sw-a" recA).1.totalRequests =
      fullHS.totalRequests + 1 ∧
    (fullHS.updateMetrics 5 "sw-a" recA).1.cache.data ≠ fullHS.cache.data := by
  decide

/-- Claim C4, amended: whenever the flush queue is full, `UpdateMetrics`
(for a non-empty switch id) and `UpdateBatch` still return success after
updating the cache; the pending batch is dropped rather than enqueued, and
the only other state change is the `totalRequests` bump — in particular no
dropped-batches counter exists or is incremented; the drop is only
logged. -/
theorem claim_C4 (hs : HybridStore) (now : Nat) (switchID : String)
    (d : TelemetryData) (data : List (String × TelemetryData))
    (hfull : hs.flushQueueCap ≤ hs.flushQueue.length) :
    (switchID ≠ "" →
      hs.updateMetrics now switchID d =
        ({ hs with
            cache := (hs.cache.updateMetrics now switchID d).1
            totalRequests := hs.totalRequests + 1 }, .ok ())) ∧
    hs.updateBatch now data =
      ({ hs with
          cache := hs.cache.updateBatch now data
          totalRequests := hs.totalRequests + 1 }, .ok ()) := by
  have hnotlt : ¬ (hs.flushQueue.length < hs.flushQueueCap) :=
    Nat.not_lt.mpr hfull
  constructor
  · intro h
    unfold HybridStore.updateMetrics InMemoryCache.updateMetrics
    simp only [if_neg h]
    rw [if_neg hnotlt]
  · unfold HybridStore.updateBatch
    dsimp only
    by_cases hm : (data.map (fun kv => { kv.2 with switchID := kv.1 })).length
        > 0
    · rw [if_pos hm, if_neg hnotlt]
    · rw [if_neg hm]

/-- Claim C4, witness: the amended statement at the concrete full store. -/
theorem claim_C4_witness :
    fullHS.updateBatch 6 [("sw-b", recB)] =
      ({ fullHS with
          cache := fullHS.cache.updateBatch 6 [("sw-b", recB)]
          totalRequests := fullHS.totalRequests + 1 }, .ok ()) :=
  (claim_C4 fullHS 6 "sw-b" recB [("sw-b", recB)] (by decide)).2

/-! Claim C5: the writer retry loop. -/

theorem writeGo_fail (db : Nat → Bool) (n : Nat) (hdb : ∀ i, db i = false) :
    ∀ (fuel attempt t acc : Nat) (hs : HybridStore) (waits : List Nat),
      writeGo db none n (fuel + 1) attempt t acc hs waits =
        ({ hs with totalDBWriteErrors := hs.totalDBWriteErrors + 1 },
         .error "failed to write metrics after max attempts",
         acc + fuel + 1, waits.reverse ++ List.range' attempt fuel) := by
  intro fuel
  induction fuel with
  | zero =>
      intro attempt t acc hs waits
      simp [writeGo, ctxDone, hdb]
  | succ f ih =>
      intro attempt t acc hs waits
      rw [show writeGo db none n (f + 1 + 1) attempt t acc hs waits =
        writeGo db none n (f + 1) (attempt + 1) (t + attempt) (acc + 1) hs
          (attempt :: waits) from by
        simp [writeGo, ctxDone, hdb, Nat.succ_ne_zero]]
      rw [ih]
      simp only [Prod.mk.injEq, List.reverse_cons, List.append_assoc,
        List.range'_succ]
      exact ⟨by simp, by simp, by omega, by simp⟩

theorem writeGo_succ (db : Nat → Bool) (n : Nat) :
    ∀ (k fuel attempt t acc : Nat) (hs : HybridStore) (waits : List Nat),
      (∀ i, i < k → db (attempt + i) = false) →
      db (attempt + k) = true →
      k < fuel →
      writeGo db none n fuel attempt t acc hs waits =
        ({ hs with
            totalDBWrites := hs.totalDBWrites + n
            pendingFlushItems := hs.pendingFlushItems - n
            lastFlushTime := t + (List.range' attempt k).sum },
         .ok (), acc + k + 1,
         waits.reverse ++ List.range' attempt k) := by
  intro k
  induction k with
  | zero =>
      intro fuel attempt t acc hs waits hfail hsucc hlt
      obtain ⟨f, rfl⟩ : ∃ f, fuel = f + 1 := ⟨fuel - 1, by omega⟩
      have hdb : db attempt = true := by simpa using hsucc
      simp [writeGo, ctxDone, hdb]
  | succ k ih =>
      intro fuel attempt t acc hs waits hfail hsucc hlt
      obtain ⟨f, rfl⟩ : ∃ f, fuel = f + 1 := ⟨fuel - 1, by omega⟩
      have hdb0 : db attempt = false := by
        simpa using hfail 0 (Nat.succ_pos k)
      have hf : f ≠ 0 := by omega
      rw [show writeGo db none n (f + 1) attempt t acc hs waits =
        writeGo db none n f (attempt + 1) (t + attempt) (acc + 1) hs
          (attempt :: waits) from by
        simp [writeGo, ctxDone, hdb0, hf]]
      rw [ih f (attempt + 1) (t + attempt) (acc + 1) hs (attempt :: waits)
        (fun i hi => by
          have h2 := hfail (i + 1) (by omega)
          have h3 : attempt + (i + 1) = attempt + 1 + i := by omega
          rw [h3] at h2
          exact h2)
        (by
          have h3 : attempt + (k + 1) = attempt + 1 + k := by omega
          rw [h3] at hsucc
          exact hsucc)
        (by omega)]
      have hsum : t + attempt + (List.range' (attempt + 1) k).sum =
          t + (List.range' attempt (k + 1)).sum := by
        rw [List.range'_succ attempt k 1, List.sum_cons]
        omega
      rw [hsum, show acc + 1 + k + 1 = acc + (k + 1) + 1 from by omega,
        List.reverse_cons, List.append_assoc, List.range'_succ attempt k 1,
        List.singleton_append]

theorem writeGo_cancelled (db : Nat → Bool) (cancelAt : Option Nat)
    (n fuel attempt t acc : Nat) (hs : HybridStore) (waits : List Nat)
    (h : ctxDone cancelAt t = true) :
    writeGo db cancelAt n (fuel + 1) attempt t acc hs waits =
      (hs, .error "context canceled", acc, waits.reverse) := by
  simp [writeGo, h]

theorem writeGo_cancel_in_backoff (db : Nat → Bool) (cancelAt : Option Nat)
    (n fuel attempt t acc : Nat) (hs : HybridStore) (waits : List Nat)
    (h1 : ctxDone cancelAt t = false) (h2 : db attempt = false)
    (h3 : fuel ≠ 0) (h4 : ctxDone cancelAt (t + attempt) = true) :
    writeGo db cancelAt n (fuel + 1) attempt t acc hs waits =
      (hs, .error "context canceled", acc + 1, waits.reverse) := by
  simp [writeGo, h1, h2, h3, h4]

/-- Claim C5, counterexample. The claim says a fatal error leads to the
batch being skipped without retrying. The code has no fatal/retryable
distinction: with a repository that fails every attempt (as a fatal error
such as a constraint violation would), the writer issues all 3 configured
attempts, sleeping 1s then 2s in between, before dropping the batch and
bumping the write-error counter. -/
theorem claim_C5_cex :
    ((newHybridStore cfg0).writeToDatabase (fun _ => false) none
        [recA]).2.2.1 = 3 ∧
    ((newHybridStore cfg0).writeToDatabase (fun _ => false) none
        [recA]).2.2.2 = [1, 2] ∧
    ((newHybridStore cfg0).writeToDatabase (fun _ => false) none
        [recA]).2.1 = .error "failed to write metrics after max attempts" ∧
    ((newHybridStore cfg0).writeToDatabase (fun _ => false) none
        [recA]).1.totalDBWriteErrors =
      (newHybridStore cfg0).totalDBWriteErrors + 1 := by
  decide

/-- Claim C5, amended: for every non-empty batch the writer retries on
any error — there is no fatal-error classification — making up to
`max_retries` attempts with linearly increasing backoff (1s after the
first failure, 2s after the second, and so on); exhausting the retries
drops the batch and increments the write-error counter; a context that is
already done aborts before the first attempt, and one that becomes done
during a backoff sleep aborts the wait and the loop immediately with the
context error. -/
theorem claim_C5 (hs : HybridStore) (db : Nat → Bool)
    (metrics : List TelemetryData) (k c : Nat) :
    (metrics ≠ [] → (∀ i, db i = false) → 1 ≤ hs.config.maxRetries →
      hs.writeToDatabase db none metrics =
        ({ hs with totalDBWriteErrors := hs.totalDBWriteErrors + 1 },
         .error "failed to write metrics after max attempts",
         hs.config.maxRetries, List.range' 1 (hs.config.maxRetries - 1))) ∧
    (metrics ≠ [] → (∀ i, i < k → db (1 + i) = false) → db (1 + k) = true →
      k < hs.config.maxRetries →
      hs.writeToDatabase db none metrics =
        ({ hs with
            totalDBWrites := hs.totalDBWrites + metrics.length
            pendingFlushItems := hs.pendingFlushItems - metrics.length
            lastFlushTime := (List.range' 1 k).sum },
         .ok (), k + 1, List.range' 1 k)) ∧
    (metrics ≠ [] → 1 ≤ hs.config.maxRetries →
      hs.writeToDatabase db (some 0) metrics =
        (hs, .error "context canceled", 0, [])) ∧
    (metrics ≠ [] → 2 ≤ hs.config.maxRetries → db 1 = false → 0 < c →
      c ≤ 1 →
      hs.writeToDatabase db (some c) metrics =
        (hs, .error "context canceled", 1, [])) := by
  refine ⟨?_, ?_, ?_, ?_⟩
  · intro hne hdb hM
    have hE : metrics.isEmpty = false := by
      cases metrics with
      | nil => exact absurd rfl hne
      | cons a l => rfl
    obtain ⟨m, hm⟩ : ∃ m, hs.config.maxRetries = m + 1 :=
      ⟨hs.config.maxRetries - 1, by omega⟩
    unfold HybridStore.writeToDatabase
    rw [hE, hm]
    simp only [Bool.false_eq_true, if_false]
    rw [writeGo_fail db metrics.length hdb m 1 0 0 hs []]
    simp
  · intro hne hfail hsucc hk
    have hE : metrics.isEmpty = false := by
      cases metrics with
      | nil => exact absurd rfl hne
      | cons a l => rfl
    unfold HybridStore.writeToDatabase
    rw [hE]
    simp only [Bool.false_eq_true, if_false]
    rw [writeGo_succ db metrics.length k hs.config.maxRetries 1 0 0 hs []
      hfail hsucc hk]
    simp
  · intro hne hM
    have hE : metrics.isEmpty = false := by
      cases metrics with
      | nil => exact absurd rfl hne
      | cons a l => rfl
    obtain ⟨m, hm⟩ : ∃ m, hs.config.maxRetries = m + 1 :=
      ⟨hs.config.maxRetries - 1, by omega⟩
    unfold HybridStore.writeToDatabase
    rw [hE, hm]
    simp only [Bool.false_eq_true, if_false]
    rw [writeGo_cancelled db (some 0) metrics.length m 1 0 0 hs [] rfl]
    rfl
  · intro hne hM hdb1 hc0 hc1
    have hE : metrics.isEmpty = false := by
      cases metrics with
      | nil => exact absurd rfl hne
      | cons a l => rfl
    obtain ⟨m, hm⟩ : ∃ m, hs.config.maxRetries = m + 2 :=
      ⟨hs.config.maxRetries - 2, by omega⟩
    unfold HybridStore.writeToDatabase
    rw [hE, hm]
    simp only [Bool.false_eq_true, if_false]
    rw [writeGo_cancel_in_backoff db (some c) metrics.length (m + 1) 1 0 0
      hs [] (by simp [ctxDone]; omega) hdb1 (Nat.succ_ne_zero m)
      (by simp [ctxDone]; omega)]
    rfl

/-- Claim C5, witness: with a repository succeeding on the third attempt
only, the writer issues three attempts with backoffs 1s then 2s and
reports success. -/
theorem claim_C5_witness :
    (newHybridStore cfg0).writeToDatabase (fun i => decide (3 ≤ i)) none
        [recA, recB] =
      ({ newHybridStore cfg0 with
          totalDBWrites := (newHybridStore cfg0).totalDBWrites + 2
          pendingFlushItems := (newHybridStore cfg0).pendingFlushItems - 2
          lastFlushTime := (List.range' 1 2).sum },
       .ok (), 3, List.range' 1 2) :=
  (claim_C5 (newHybridStore cfg0) (fun i => decide (3 ≤ i)) [recA, recB]
      2 1).2.1
    (by decide) (by decide) (by decide) (by decide)

/-! Claim C2: the bulk storage path. -/

theorem mapGet_buildCacheData_fold (id : String) :
    ∀ (ms : List TelemetryData) (m0 : List (String × TelemetryData)),
      mapGet id (ms.foldl (fun m r => mapSet r.switchID r m) m0) =
        match lastWith id ms with
        | some r => some r
        | none => mapGet id m0 := by
  intro ms
  induction ms with
  | nil => intro m0; rfl
  | cons r rest ih =>
      intro m0
      rw [List.foldl_cons, ih]
      cases h : lastWith id rest with
      | some x => simp [lastWith, h]
      | none =>
          simp only [lastWith, h]
          by_cases h2 : r.switchID = id
          · rw [if_pos h2, h2, mapGet_mapSet_self]
          · rw [if_neg h2,
              mapGet_mapSet_ne r.switchID id r (fun hh => h2 hh.symm)]

theorem mapGet_buildCacheData (id : String) (ms : List TelemetryData) :
    mapGet id (buildCacheData ms) =
      match lastWith id ms with
      | some r => some r
      | none => none := by
  rw [buildCacheData, mapGet_buildCacheData_fold]
  rfl

/-- Uniqueness of keys in an association-list map. -/
def keysNodup (m : List (String × α)) : Prop := (m.map Prod.fst).Nodup

theorem mem_keys_mapSet (k a : String) (v : α) (m : List (String × α))
    (ha : a ∈ (mapSet k v m).map Prod.fst) :
    a = k ∨ a ∈ m.map Prod.fst := by
  rw [List.mem_map] at ha
  obtain ⟨kv, hkv, hfst⟩ := ha
  rcases mem_mapSet k v kv m hkv with h | h
  · left
    rw [h] at hfst
    exact hfst.symm
  · right
    exact List.mem_map.mpr ⟨kv, h, hfst⟩

theorem keysNodup_mapSet (k : String) (v : α) :
    ∀ m : List (String × α), keysNodup m → keysNodup (mapSet k v m) := by
  intro m
  induction m with
  | nil =>
      intro _
      simp [mapSet, keysNodup]
  | cons kv rest ih =>
      obtain ⟨k1, v1⟩ := kv
      intro hnd
      unfold keysNodup at hnd ⊢
      rw [List.map_cons, List.nodup_cons] at hnd
      by_cases h1 : k1 = k
      · rw [show mapSet k v ((k1, v1) :: rest) = (k, v) :: rest from by
          simp [mapSet, h1]]
        rw [List.map_cons, List.nodup_cons]
        exact ⟨h1 ▸ hnd.1, hnd.2⟩
      · rw [show mapSet k v ((k1, v1) :: rest) = (k1, v1) :: mapSet k v rest
          from by simp [mapSet, h1]]
        rw [List.map_cons, List.nodup_cons]
        refine ⟨?_, ih hnd.2⟩
        intro hmem
        rcases mem_keys_mapSet k k1 v rest hmem with h | h
        · exact h1 h
        · exact hnd.1 h

theorem keysNodup_buildCacheData_fold :
    ∀ (ms : List TelemetryData) (m0 : List (String × TelemetryData)),
      keysNodup m0 →
      keysNodup (ms.foldl (fun m r => mapSet r.switchID r m) m0) := by
  intro ms
  induction ms with
  | nil => intro m0 h; exact h
  | cons r rest ih =>
      intro m0 h
      rw [List.foldl_cons]
      exact ih _ (keysNodup_mapSet r.switchID r m0 h)

theorem keysNodup_buildCacheData (ms : List TelemetryData) :
    keysNodup (buildCacheData ms) :=
  keysNodup_buildCacheData_fold ms [] (by simp [keysNodup])

theorem mapGet_updateBatchFold_not_mem (now : Nat) (id : String) :
    ∀ (m : List (String × TelemetryData)) (c : InMemoryCache),
      id ∉ m.map Prod.fst →
      mapGet id (m.foldl (InMemoryCache.updateBatchStep now) c).data =
        mapGet id c.data := by
  intro m
  induction m with
  | nil => intro c _; rfl
  | cons kv rest ih =>
      obtain ⟨k1, v1⟩ := kv
      intro c hnm
      rw [List.map_cons, List.mem_cons] at hnm
      push_neg at hnm
      rw [List.foldl_cons, ih _ hnm.2]
      unfold InMemoryCache.updateBatchStep
      by_cases h1 : k1 = ""
      · rw [if_pos h1]
      · rw [if_neg h1]
        exact mapGet_mapSet_ne k1 id _ hnm.1 c.data

theorem mapGet_updateBatchFold (now : Nat) (id : String) (v : TelemetryData) :
    ∀ (m : List (String × TelemetryData)) (c : InMemoryCache),
      keysNodup m → id ≠ "" → mapGet id m = some v →
      mapGet id (m.foldl (InMemoryCache.updateBatchStep now) c).data =
        some (normalizeRecord id now v) := by
  intro m
  induction m with
  | nil =>
      intro c _ _ hget
      cases hget
  | cons kv rest ih =>
      obtain ⟨k1, v1⟩ := kv
      intro c hnd hne hget
      unfold keysNodup at hnd
      rw [List.map_cons, List.nodup_cons] at hnd
      by_cases h2 : k1 = id
      · have hv : v1 = v := by
          rw [show mapGet id ((k1, v1) :: rest) = some v1 from by
            simp [mapGet, h2]] at hget
          exact Option.some.inj hget
        rw [List.foldl_cons,
          mapGet_updateBatchFold_not_mem now id rest _ (h2 ▸ hnd.1)]
        unfold InMemoryCache.updateBatchStep
        rw [if_neg (by simpa [h2] using hne)]
        dsimp only
        rw [h2, hv, mapGet_mapSet_self]
      · have hget2 : mapGet id rest = some v := by
          rw [show mapGet id ((k1, v1) :: rest) = mapGet id rest from by
            simp [mapGet, h2]] at hget
          exact hget
        rw [List.foldl_cons]
        exact ih _ hnd.2 hne hget2

theorem mapGet_updateBatch (c : InMemoryCache) (now : Nat) (id : String)
    (v : TelemetryData) (m : List (String × TelemetryData))
    (hnd : keysNodup m) (hne : id ≠ "") (hget : mapGet id m = some v) :
    mapGet id (c.updateBatch now m).data = some (normalizeRecord id now v) := by
  unfold InMemoryCache.updateBatch
  cases m with
  | nil => cases hget
  | cons kv rest =>
      rw [if_neg (by simp)]
      exact mapGet_updateBatchFold now id v _ c hnd hne hget

/-- Claim C2, counterexample. The claim says `StoreMetricsBulk` enqueues
the batch on the bounded flush queue for the background writer. On the
code, a bulk store into a fresh store leaves the flush queue empty — the
batch was not enqueued — while the records were written to the database
synchronously within the call (the DB write counter already reflects
them when it returns). -/
theorem claim_C2_cex :
    ((newHybridStore cfg0).storeMetricsBulk 5 (fun _ => true) none
        [recA]).1.flushQueue = [] ∧
    ((newHybridStore cfg0).storeMetricsBulk 5 (fun _ => true) none
        [recA]).2 = .ok () ∧
    ((newHybridStore cfg0).storeMetricsBulk 5 (fun _ => true) none
        [recA]).1.totalDBWrites = 1 := by
  decide

/-- Claim C2, amended: for every non-empty batch (with the first database
attempt succeeding), `StoreMetricsBulk` updates the cache with the latest
record per switch id within the batch, and writes the entire batch to the
database synchronously with the writer retry logic — the flush queue is
not involved and is left unchanged. -/
theorem claim_C2 (hs : HybridStore) (now : Nat) (db : Nat → Bool)
    (metrics : List TelemetryData) (hne : metrics ≠ [])
    (hdb : db 1 = true) (hM : 1 ≤ hs.config.maxRetries) :
    ((hs.storeMetricsBulk now db none metrics).2 = .ok () ∧
     (hs.storeMetricsBulk now db none metrics).1.flushQueue =
       hs.flushQueue ∧
     (hs.storeMetricsBulk now db none metrics).1.totalDBWrites =
       hs.totalDBWrites + metrics.length) ∧
    (∀ (id : String) (r : TelemetryData), id ≠ "" →
      lastWith id metrics = some r →
      mapGet id (hs.storeMetricsBulk now db none metrics).1.cache.data =
        some (normalizeRecord id now r)) := by
  have hE : metrics.isEmpty = false := by
    cases metrics with
    | nil => exact absurd rfl hne
    | cons a l => rfl
  have hwrite :
      HybridStore.writeToDatabase
          { hs with cache := hs.cache.updateBatch now (buildCacheData metrics) }
          db none metrics =
        ({ hs with
            cache := hs.cache.updateBatch now (buildCacheData metrics)
            totalDBWrites := hs.totalDBWrites + metrics.length
            pendingFlushItems := hs.pendingFlushItems - metrics.length
            lastFlushTime := 0 + (List.range' 1 0).sum },
         .ok (), 0 + 0 + 1, [].reverse ++ List.range' 1 0) := by
    unfold HybridStore.writeToDatabase
    rw [hE]
    simp only [Bool.false_eq_true, if_false]
    exact writeGo_succ db metrics.length 0 hs.config.maxRetries 1 0 0 _ []
      (fun i hi => absurd hi (Nat.not_lt_zero i)) (by simpa using hdb)
      (by omega)
  have hbulk : hs.storeMetricsBulk now db none metrics =
      ({ hs with
          cache := hs.cache.updateBatch now (buildCacheData metrics)
          totalDBWrites := hs.totalDBWrites + metrics.length
          pendingFlushItems := hs.pendingFlushItems - metrics.length
          lastFlushTime := 0 + (List.range' 1 0).sum },
       .ok ()) := by
    unfold HybridStore.storeMetricsBulk
    rw [hE]
    simp only [Bool.false_eq_true, if_false]
    rw [hwrite]
  rw [hbulk]
  refine ⟨⟨rfl, rfl, rfl⟩, ?_⟩
  intro id r hid hlast
  have hget : mapGet id (buildCacheData metrics) = some r := by
    rw [mapGet_buildCacheData, hlast]
  exact mapGet_updateBatch hs.cache now id r (buildCacheData metrics)
    (keysNodup_buildCacheData metrics) hid hget

/-- Claim C2, witness: a batch with two records for `sw-a` caches the
later one, persists all three records synchronously, and leaves the
flush queue alone. -/
theorem claim_C2_witness :
    (((newHybridStore cfg0).storeMetricsBulk 5 (fun _ => true) none
        [recA, recB, recA2]).2 = .ok () ∧
     ((newHybridStore cfg0).storeMetricsBulk 5 (fun _ => true) none
        [recA, recB, recA2]).1.flushQueue = (newHybridStore cfg0).flushQueue ∧
     ((newHybridStore cfg0).storeMetricsBulk 5 (fun _ => true) none
        [recA, recB, recA2]).1.totalDBWrites =
       (newHybridStore cfg0).totalDBWrites + 3) ∧
    mapGet "sw-a" ((newHybridStore cfg0).storeMetricsBulk 5 (fun _ => true)
        none [recA, recB, recA2]).1.cache.data =
      some (normalizeRecord "sw-a" 5 recA2) :=
  ⟨(claim_C2 (newHybridStore cfg0) 5 (fun _ => true) [recA, recB, recA2]
      (by decide) (by decide) (by decide)).1,
   (claim_C2 (newHybridStore cfg0) 5 (fun _ => true) [recA, recB, recA2]
      (by decide) (by decide) (by decide)).2 "sw-a" recA2 (by decide)
     (by decide)⟩

end Ufm
